import Mathlib

/-
Shallow embedding of the Lahore UHI mapper front-end session logic.
The authoritative source is the densest variant of the script
(src/unnamed/part_001); src/app.js is an earlier, coarser variant of the
same file.  Pure helper functions (getTemperatureColor, validateDates, the
styling callbacks) are translated directly; the two click handlers are
embedded as explicit state-transition functions on a SessionState record,
with the backend response supplied as a parameter and the number of issued
backend calls returned alongside the new state.
-/

namespace UhiMapper

/-- Milliseconds per day, the divisor `1000 * 60 * 60 * 24` used by the
span check in validateDates (part_001 line 90). -/
def msPerDay : ℤ := 1000 * 60 * 60 * 24

/-- Outcome of date-range validation.  The source function returns a
boolean and raises an alert naming the reason; we keep the reason. -/
inductive DateValidation
  | ok
  | invalidOrder
  | rangeTooLarge
deriving DecidableEq, Repr

/-- `validateDates` (part_001 lines 80-96).  Dates are modelled as
millisecond timestamps (what `new Date(...)` subtraction yields in JS);
the span check divides the millisecond difference by msPerDay and
compares against 365, exactly as the source does. -/
def validateDates (s e : ℤ) : DateValidation :=
  if s > e then .invalidOrder
  else if ((e : ℚ) - (s : ℚ)) / (msPerDay : ℚ) > 365 then .rangeTooLarge
  else .ok

/-- The rational span test of validateDates is equivalent to an integer
comparison on millisecond differences. -/
theorem span_gt_iff (s e : ℤ) :
    ((e : ℚ) - (s : ℚ)) / (msPerDay : ℚ) > 365 ↔ e - s > 365 * msPerDay := by
  rw [gt_iff_lt, lt_div_iff₀ (by norm_num [msPerDay] : (0:ℚ) < (msPerDay : ℚ))]
  rw [gt_iff_lt]
  constructor
  · intro h
    have h2 : ((365 * msPerDay : ℤ) : ℚ) < ((e - s : ℤ) : ℚ) := by push_cast; linarith
    exact_mod_cast h2
  · intro h
    have h2 : ((365 * msPerDay : ℤ) : ℚ) < ((e - s : ℤ) : ℚ) := by exact_mod_cast h
    push_cast at h2
    linarith

/-- Integer characterization of validateDates, used to evaluate it on
concrete inputs without rational division. -/
theorem validateDates_eq (s e : ℤ) :
    validateDates s e =
      if s > e then DateValidation.invalidOrder
      else if e - s > 365 * msPerDay then DateValidation.rangeTooLarge
      else DateValidation.ok := by
  unfold validateDates
  by_cases h1 : s > e
  · simp [h1]
  · rw [if_neg h1, if_neg h1]
    by_cases h2 : e - s > 365 * msPerDay
    · rw [if_pos ((span_gt_iff s e).mpr h2), if_pos h2]
    · rw [if_neg (fun hc => h2 ((span_gt_iff s e).mp hc)), if_neg h2]

/-- `getTemperatureColor` (part_001 lines 282-293): the ten-band
descending threshold ladder, returning the fill colors of the source. -/
def getTemperatureColor (temp : ℚ) : String :=
  if temp > 40 then "#d73027"
  else if temp > 37 then "#f46d43"
  else if temp > 35 then "#fdae61"
  else if temp > 32 then "#fee08b"
  else if temp > 30 then "#ffffbf"
  else if temp > 27 then "#d9ef8b"
  else if temp > 25 then "#a6d96a"
  else if temp > 22 then "#66bd63"
  else if temp > 20 then "#1a9850"
  else "#2b83ba"

/-- The ten ordered bands, named after the comments the source attaches
to each branch of getTemperatureColor ("Extreme heat", "Very high heat",
"High heat", ...). -/
inductive Band
  | extreme
  | veryHigh
  | high
  | moderateHigh
  | warm
  | mild
  | cool
  | cooler
  | coolGreen
  | cold
deriving DecidableEq, Repr

/-- Band-valued view of the same ladder: identical branch structure and
thresholds as getTemperatureColor, returning the band name instead of
its color. -/
def bandOf (temp : ℚ) : Band :=
  if temp > 40 then .extreme
  else if temp > 37 then .veryHigh
  else if temp > 35 then .high
  else if temp > 32 then .moderateHigh
  else if temp > 30 then .warm
  else if temp > 27 then .mild
  else if temp > 25 then .cool
  else if temp > 22 then .cooler
  else if temp > 20 then .coolGreen
  else .cold

/-- Color of each band as returned by the corresponding branch of
getTemperatureColor. -/
def bandColor : Band → String
  | .extreme => "#d73027"
  | .veryHigh => "#f46d43"
  | .high => "#fdae61"
  | .moderateHigh => "#fee08b"
  | .warm => "#ffffbf"
  | .mild => "#d9ef8b"
  | .cool => "#a6d96a"
  | .cooler => "#66bd63"
  | .coolGreen => "#1a9850"
  | .cold => "#2b83ba"

/-- Hotness index of a band: 9 for extreme down to 0 for cold, so larger
means hotter on the descending ladder. -/
def bandHotness : Band → ℕ
  | .extreme => 9
  | .veryHigh => 8
  | .high => 7
  | .moderateHigh => 6
  | .warm => 5
  | .mild => 4
  | .cool => 3
  | .cooler => 2
  | .coolGreen => 1
  | .cold => 0

/-- The band view agrees with the source color function everywhere. -/
theorem getTemperatureColor_eq_bandColor (t : ℚ) :
    getTemperatureColor t = bandColor (bandOf t) := by
  unfold getTemperatureColor bandOf
  split_ifs <;> rfl

/-- JS truthiness applied to the LST property: the style callback reads
`feature.properties?.LST || 25` (part_001 line 146), so an absent
property is replaced by 25, and so is a property equal to 0, because 0 is
falsy in JS.  Modelled with `none` for an absent property. -/
def lstOrDefault (lst : Option ℚ) : ℚ :=
  match lst with
  | none => 25
  | some x => if x = 0 then 25 else x

/-- Fill color computed by the heat-layer style callback
(part_001 lines 144-154). -/
def heatFillColor (lst : Option ℚ) : String :=
  getTemperatureColor (lstOrDefault lst)

/-- The `colors` lookup table in the mitigation pointToLayer callback
(part_001 lines 236-240); `none` models an absent key (JS `undefined`). -/
def priorityColorTable (p : String) : Option String :=
  if p = "high" then some "#e74c3c"
  else if p = "medium" then some "#f39c12"
  else if p = "low" then some "#2ecc71"
  else none

/-- Style (fillColor, radius) produced by the mitigation pointToLayer
callback (part_001 lines 234-248).  The source computes
`priority = feature.properties.priority || 'high'` — an absent or empty
(falsy) priority becomes "high" — then
`fillColor: colors[priority] || '#27ae60'`, so a present but unmapped
priority falls back to the color "#27ae60". -/
def mitigationStyle (priority : Option String) : String × ℕ :=
  let p := match priority with
           | none => "high"
           | some str => if str = "" then "high" else str
  ((priorityColorTable p).getD "#27ae60", 6)

/-- The four labels of the legend markup built in legend.onAdd
(part_001 lines 182-187), in the order they appear in the HTML. -/
def legendLabels : List String := ["25", "30", "35", "40+"]

/-- Kinds of layers and controls the handlers attach to the map. -/
inductive LayerKind
  | heatLayer
  | legendCtl
  | loadingCtl
  | clusterGroup
deriving DecidableEq, Repr

/-- Outcome of a backend fetch, supplied to a handler as a parameter:
either a 2xx response (ok) or a transport error / non-2xx response
carrying the error message the handler would extract. -/
inductive FetchResult
  | ok
  | err (msg : String)
deriving DecidableEq, Repr

/-- The mutable session state of part_001: the four layer reference
variables (lines 12-15), what is currently attached to the map (layers
and controls are tracked uniformly, tagged with fresh numeric handles),
the legend content last rendered, the showAlert notifications issued so
far, and the enabled state of the two trigger buttons. -/
structure SessionState where
  currentDateRange : Option (ℤ × ℤ)
  uhiLayer : Option ℕ
  mitigationLayer : Option ℕ
  legend : Option ℕ
  legendContent : Option (List String × (ℤ × ℤ))
  attached : List (ℕ × LayerKind)
  nextId : ℕ
  notifications : List String
  loadBtnEnabled : Bool
  mitBtnEnabled : Bool
deriving DecidableEq, Repr

/-- `map.removeLayer` / `map.removeControl` on a tracked handle: drops
the handle from the attached list; a no-op when the handle is not
attached (as in Leaflet). -/
def removeById (att : List (ℕ × LayerKind)) (i : ℕ) : List (ℕ × LayerKind) :=
  att.filter (fun p => p.1 ≠ i)

/-- Number of attached handles of a given kind. -/
def countKind (att : List (ℕ × LayerKind)) (k : LayerKind) : ℕ :=
  (att.filter (fun p => p.2 = k)).length

/-- The load-data click handler (part_001 lines 99-202), returning the
new state and the number of backend calls issued.  Control flow follows
the source exactly: validateDates aborts before anything else (the
validation alert is a native browser modal, not map state); an input
range equal to currentDateRange returns early; otherwise
currentDateRange is updated BEFORE the try block, the button is
disabled, a loading control is attached, and the fetch is issued.  On a
failed fetch the catch block raises a showAlert notification and the
finally block re-enables the button — the loading control is removed
only on the success path (line 141).  On success the old heat layer,
old legend and the loading control are removed, then the new heat layer
and a new legend (with the four labels and the requested range) are
attached. -/
def loadData (st : SessionState) (startI endI : ℤ) (fetch : FetchResult) :
    SessionState × ℕ :=
  if validateDates startI endI ≠ .ok then (st, 0)
  else if st.currentDateRange = some (startI, endI) then (st, 0)
  else
    let st1 := { st with currentDateRange := some (startI, endI) }
    let loadingId := st1.nextId
    let st2 := { st1 with
      loadBtnEnabled := false,
      attached := (loadingId, LayerKind.loadingCtl) :: st1.attached,
      nextId := st1.nextId + 1 }
    match fetch with
    | .err msg =>
        ({ st2 with
            notifications := ("Error: " ++ msg) :: st2.notifications,
            loadBtnEnabled := true }, 1)
    | .ok =>
        let a1 := match st2.uhiLayer with
                  | some i => removeById st2.attached i
                  | none => st2.attached
        let a2 := match st2.legend with
                  | some i => removeById a1 i
                  | none => a1
        let a3 := removeById a2 loadingId
        let h := st2.nextId
        let l := st2.nextId + 1
        ({ st2 with
            attached := (l, LayerKind.legendCtl) :: (h, LayerKind.heatLayer) :: a3,
            uhiLayer := some h,
            legend := some l,
            legendContent := some (legendLabels, (startI, endI)),
            nextId := st2.nextId + 2,
            loadBtnEnabled := true }, 1)

/-- The show-mitigation click handler (part_001 lines 205-279).  On
success the source removes `mitigationLayer` from the map (line 222),
but `mitigationLayer` holds the inner geoJSON layer (line 233), which
was added to the cluster group (line 263), never to the map; what is
attached to the map is the fresh cluster group `markers` (line 264),
whose handle is stored nowhere.  The model mirrors this: the cluster
group handle c is attached, the geoJSON handle g (not attached) is
recorded in mitigationLayer. -/
def showMitigation (st : SessionState) (fetch : FetchResult) :
    SessionState × ℕ :=
  let st1 := { st with mitBtnEnabled := false }
  match fetch with
  | .err msg =>
      ({ st1 with
          notifications := ("Error: " ++ msg) :: st1.notifications,
          mitBtnEnabled := true }, 1)
  | .ok =>
      let a1 := match st1.mitigationLayer with
                | some i => removeById st1.attached i
                | none => st1.attached
      let c := st1.nextId
      let g := st1.nextId + 1
      ({ st1 with
          mitigationLayer := some g,
          attached := (c, LayerKind.clusterGroup) :: a1,
          nextId := st1.nextId + 2,
          mitBtnEnabled := true }, 1)

/-- Session state at view open (part_001 lines 12-15 and 67-77): no
layers, both buttons enabled, and currentDateRange pre-initialized to
the default last-30-days range — the same pair of dates written into the
two date inputs. -/
def initState (e0 : ℤ) : SessionState :=
  { currentDateRange := some (e0 - 30 * msPerDay, e0)
    uhiLayer := none
    mitigationLayer := none
    legend := none
    legendContent := none
    attached := []
    nextId := 0
    notifications := []
    loadBtnEnabled := true
    mitBtnEnabled := true }

/- ------------------------------------------------------------------ -/
/- Claim theorems                                                      -/
/- ------------------------------------------------------------------ -/

/-- Claim C4, counterexample: the claim says classify(40.0) is the high
band, but getTemperatureColor 40 takes the `temp > 37` branch, i.e. the
veryHigh band with color "#f46d43", while the high band's color is
"#fdae61". -/
theorem c4_counterexample :
    bandOf 40 = Band.veryHigh ∧ Band.veryHigh ≠ Band.high ∧
    getTemperatureColor 40 = "#f46d43" ∧ bandColor Band.high = "#fdae61" := by
  decide

/-- Claim C4 (amended): the classifier is exact at band boundaries:
classify(40.0) is veryHigh (not extreme, since the bound is strictly
greater-than 40), classify(40.01) is extreme, classify(20.0) is cold and
classify(20.01) is coolGreen. -/
theorem c4_classify_boundaries :
    bandOf 40 = Band.veryHigh ∧ bandOf (40.01 : ℚ) = Band.extreme ∧
    bandOf 20 = Band.cold ∧ bandOf (20.01 : ℚ) = Band.coolGreen := by
  norm_num [bandOf]

/-- Lower bound on the hotness of any temperature above 20. -/
theorem hotness_ge_gt20 (t : ℚ) (ht : t > 20) : 1 ≤ bandHotness (bandOf t) := by
  unfold bandOf
  split_ifs <;> simp only [bandHotness] <;> first | omega | linarith

/-- Lower bound on the hotness of any temperature above 22. -/
theorem hotness_ge_gt22 (t : ℚ) (ht : t > 22) : 2 ≤ bandHotness (bandOf t) := by
  unfold bandOf
  split_ifs <;> simp only [bandHotness] <;> first | omega | linarith

/-- Lower bound on the hotness of any temperature above 25. -/
theorem hotness_ge_gt25 (t : ℚ) (ht : t > 25) : 3 ≤ bandHotness (bandOf t) := by
  unfold bandOf
  split_ifs <;> simp only [bandHotness] <;> first | omega | linarith

/-- Lower bound on the hotness of any temperature above 27. -/
theorem hotness_ge_gt27 (t : ℚ) (ht : t > 27) : 4 ≤ bandHotness (bandOf t) := by
  unfold bandOf
  split_ifs <;> simp only [bandHotness] <;> first | omega | linarith

/-- Lower bound on the hotness of any temperature above 30. -/
theorem hotness_ge_gt30 (t : ℚ) (ht : t > 30) : 5 ≤ bandHotness (bandOf t) := by
  unfold bandOf
  split_ifs <;> simp only [bandHotness] <;> first | omega | linarith

/-- Lower bound on the hotness of any temperature above 32. -/
theorem hotness_ge_gt32 (t : ℚ) (ht : t > 32) : 6 ≤ bandHotness (bandOf t) := by
  unfold bandOf
  split_ifs <;> simp only [bandHotness] <;> first | omega | linarith

/-- Lower bound on the hotness of any temperature above 35. -/
theorem hotness_ge_gt35 (t : ℚ) (ht : t > 35) : 7 ≤ bandHotness (bandOf t) := by
  unfold bandOf
  split_ifs <;> simp only [bandHotness] <;> first | omega | linarith

/-- Lower bound on the hotness of any temperature above 37. -/
theorem hotness_ge_gt37 (t : ℚ) (ht : t > 37) : 8 ≤ bandHotness (bandOf t) := by
  unfold bandOf
  split_ifs <;> simp only [bandHotness] <;> first | omega | linarith

/-- Any temperature above 40 classifies as the hottest band. -/
theorem hotness_ge_gt40 (t : ℚ) (ht : t > 40) : 9 ≤ bandHotness (bandOf t) := by
  unfold bandOf
  split_ifs <;> simp only [bandHotness] <;> first | omega | linarith

/-- Claim C5: the temperature classifier is a total function on the
rationals (total by construction as a Lean function) and monotone: for
a < b the band assigned to a is never hotter than the band assigned
to b. -/
theorem c5_classify_monotone (a b : ℚ) (h : a < b) :
    bandHotness (bandOf a) ≤ bandHotness (bandOf b) := by
  by_cases h1 : a > 40
  · have ha : bandOf a = .extreme := by simp [bandOf, h1]
    rw [ha]
    exact hotness_ge_gt40 b (by linarith)
  by_cases h2 : a > 37
  · have ha : bandOf a = .veryHigh := by simp [bandOf, h1, h2]
    rw [ha]
    exact le_trans (by norm_num [bandHotness]) (hotness_ge_gt37 b (by linarith))
  by_cases h3 : a > 35
  · have ha : bandOf a = .high := by simp [bandOf, h1, h2, h3]
    rw [ha]
    exact le_trans (by norm_num [bandHotness]) (hotness_ge_gt35 b (by linarith))
  by_cases h4 : a > 32
  · have ha : bandOf a = .moderateHigh := by simp [bandOf, h1, h2, h3, h4]
    rw [ha]
    exact le_trans (by norm_num [bandHotness]) (hotness_ge_gt32 b (by linarith))
  by_cases h5 : a > 30
  · have ha : bandOf a = .warm := by simp [bandOf, h1, h2, h3, h4, h5]
    rw [ha]
    exact le_trans (by norm_num [bandHotness]) (hotness_ge_gt30 b (by linarith))
  by_cases h6 : a > 27
  · have ha : bandOf a = .mild := by simp [bandOf, h1, h2, h3, h4, h5, h6]
    rw [ha]
    exact le_trans (by norm_num [bandHotness]) (hotness_ge_gt27 b (by linarith))
  by_cases h7 : a > 25
  · have ha : bandOf a = .cool := by simp [bandOf, h1, h2, h3, h4, h5, h6, h7]
    rw [ha]
    exact le_trans (by norm_num [bandHotness]) (hotness_ge_gt25 b (by linarith))
  by_cases h8 : a > 22
  · have ha : bandOf a = .cooler := by
      simp [bandOf, h1, h2, h3, h4, h5, h6, h7, h8]
    rw [ha]
    exact le_trans (by norm_num [bandHotness]) (hotness_ge_gt22 b (by linarith))
  by_cases h9 : a > 20
  · have ha : bandOf a = .coolGreen := by
      simp [bandOf, h1, h2, h3, h4, h5, h6, h7, h8, h9]
    rw [ha]
    exact le_trans (by norm_num [bandHotness]) (hotness_ge_gt20 b (by linarith))
  · have ha : bandOf a = .cold := by
      simp [bandOf, h1, h2, h3, h4, h5, h6, h7, h8, h9]
    rw [ha]
    exact Nat.zero_le _

/-- Claim C5, witness at a = 0 and b = 50. -/
theorem c5_classify_monotone_witness :
    (0 : ℚ) < 50 ∧ bandHotness (bandOf 0) ≤ bandHotness (bandOf 50) :=
  ⟨by norm_num, c5_classify_monotone 0 50 (by norm_num)⟩

/-- Claim C6: validation yields invalidOrder exactly when start > end,
rangeTooLarge exactly when the span exceeds 365 days (365 days is ok,
366 is rangeTooLarge), and any validation failure makes the load handler
return with zero backend calls and the state unchanged. -/
theorem c6_validate_range (s e : ℤ) (st : SessionState) (f : FetchResult) :
    (validateDates s e = .invalidOrder ↔ s > e) ∧
    (validateDates s e = .rangeTooLarge ↔ e - s > 365 * msPerDay) ∧
    (e - s = 365 * msPerDay → validateDates s e = .ok) ∧
    (e - s = 366 * msPerDay → validateDates s e = .rangeTooLarge) ∧
    (validateDates s e ≠ .ok → loadData st s e f = (st, 0)) := by
  have habort : validateDates s e ≠ .ok → loadData st s e f = (st, 0) := by
    intro hne
    unfold loadData
    rw [if_pos hne]
  refine ⟨?_, ?_, ?_, ?_, habort⟩ <;> rw [validateDates_eq] <;>
    split_ifs with h1 h2 <;> simp_all [msPerDay] <;> omega

/-- Claim C6, witness: a 365-day span validates ok, and a reversed range
aborts the load with zero backend calls. -/
theorem c6_validate_range_witness :
    validateDates 0 (365 * msPerDay) = .ok ∧
    loadData (initState 0) 5 2 FetchResult.ok = (initState 0, 0) :=
  ⟨(c6_validate_range 0 (365 * msPerDay) (initState 0) .ok).2.2.1 (by decide),
   (c6_validate_range 5 2 (initState 0) .ok).2.2.2.2
     (by rw [validateDates_eq]; decide)⟩

/-- Claim C7, counterexample: a present but unmapped priority such as
"urgent" is styled with the fallback color "#27ae60", not with the high
color "#e74c3c" as the claim states. -/
theorem c7_counterexample :
    mitigationStyle (some "urgent") = ("#27ae60", 6) ∧
    mitigationStyle (some "urgent") ≠ ("#e74c3c", 6) := by
  decide

/-- Claim C7 (amended): high maps to "#e74c3c", medium to "#f39c12", low
to "#2ecc71", radius is 6 for every input; an absent or empty (falsy)
priority is styled as high, while a present priority outside the table
gets the fallback color "#27ae60". -/
theorem c7_priority_styling (p : String)
    (hp : p ≠ "high" ∧ p ≠ "medium" ∧ p ≠ "low" ∧ p ≠ "") :
    mitigationStyle none = ("#e74c3c", 6) ∧
    mitigationStyle (some "") = ("#e74c3c", 6) ∧
    mitigationStyle (some "high") = ("#e74c3c", 6) ∧
    mitigationStyle (some "medium") = ("#f39c12", 6) ∧
    mitigationStyle (some "low") = ("#2ecc71", 6) ∧
    mitigationStyle (some p) = ("#27ae60", 6) ∧
    (∀ q : Option String, (mitigationStyle q).2 = 6) := by
  obtain ⟨h1, h2, h3, h4⟩ := hp
  refine ⟨rfl, rfl, rfl, rfl, rfl, ?_, ?_⟩
  · simp [mitigationStyle, priorityColorTable, h1, h2, h3, h4]
  · intro q
    cases q <;> simp [mitigationStyle]

/-- Claim C7, witness at the unmapped priority "tree_planting". -/
theorem c7_priority_styling_witness :
    mitigationStyle (some "tree_planting") = ("#27ae60", 6) :=
  (c7_priority_styling "tree_planting" (by decide)).2.2.2.2.2.1

/-- Claim C8, counterexample: 37 is a boundary of the classifier ladder
(the band changes between 37 and 38), yet "37" is not among the legend's
labels, so the legend does not list the same band boundaries as the
classifier; the four labels it does list appear in ascending order. -/
theorem c8_counterexample :
    bandOf 37 = Band.high ∧ bandOf 38 = Band.veryHigh ∧
    "37" ∉ legendLabels ∧ legendLabels = ["25", "30", "35", "40+"] := by
  decide

/-- Claim C8 (amended): each successful heat load regenerates the legend
with the fixed four labels 25, 30, 35, 40+ (in ascending order, a
proper subset of the classifier's boundaries — each listed value is a
genuine band boundary) annotated with the requested date range; a failed
load and the mitigation handler leave the legend content unchanged. -/
theorem c8_legend_regeneration (st : SessionState) (s e : ℤ) (m : String)
    (f : FetchResult)
    (hv : validateDates s e = DateValidation.ok)
    (hd : st.currentDateRange ≠ some (s, e)) :
    (loadData st s e .ok).1.legendContent = some (legendLabels, (s, e)) ∧
    (loadData st s e (.err m)).1.legendContent = st.legendContent ∧
    (showMitigation st f).1.legendContent = st.legendContent ∧
    legendLabels = ["25", "30", "35", "40+"] ∧
    getTemperatureColor 25 ≠ getTemperatureColor 26 ∧
    getTemperatureColor 30 ≠ getTemperatureColor 31 ∧
    getTemperatureColor 35 ≠ getTemperatureColor 36 ∧
    getTemperatureColor 40 ≠ getTemperatureColor 41 := by
  refine ⟨?_, ?_, ?_, rfl, by decide, by decide, by decide, by decide⟩
  · simp [loadData, hv, hd]
  · simp [loadData, hv, hd]
  · cases f <;> simp [showMitigation]

/-- Claim C8, witness: a concrete successful load writes the four labels
and the requested range into the legend. -/
theorem c8_legend_regeneration_witness :
    (loadData (initState 0) 0 msPerDay .ok).1.legendContent
      = some (legendLabels, (0, msPerDay)) :=
  (c8_legend_regeneration (initState 0) 0 msPerDay "x" .ok
    (by rw [validateDates_eq]; decide) (by decide)).1

/-- Claim C9: a heat feature whose LST property is exactly 0 is styled
identically to one with LST 25, because the default is applied by falsy
coercion; the classifier itself distinguishes 0 from 25, so a
legitimate 0-degree measurement is silently rewritten. -/
theorem c9_lst_zero_styled_as_default :
    heatFillColor (some 0) = heatFillColor (some 25) ∧
    lstOrDefault (some 0) = 25 ∧
    getTemperatureColor 0 ≠ getTemperatureColor 25 := by
  decide

/-- Claim C1, counterexample: from the freshly opened view, loading a
new range whose backend call fails still issues one call and writes the
range into currentDateRange (the update happens before the fetch), so
re-triggering with the same range issues zero backend calls —
contradicting the claim that only successful loads enter the dedup
cache and that a retry after failure calls the backend again. -/
theorem c1_failed_load_enters_dedup_cache :
    (loadData (initState (1000 * msPerDay)) 0 (10 * msPerDay) (.err "boom")).2 = 1 ∧
    (loadData (initState (1000 * msPerDay)) 0 (10 * msPerDay)
        (.err "boom")).1.currentDateRange = some (0, 10 * msPerDay) ∧
    (loadData (loadData (initState (1000 * msPerDay)) 0 (10 * msPerDay)
        (.err "boom")).1 0 (10 * msPerDay) FetchResult.ok).2 = 0 := by
  have hv : validateDates 0 (10 * msPerDay) = .ok := by
    rw [validateDates_eq]; decide
  simp only [loadData, hv]
  decide

/-- Claim C1 (amended): the dedup cache holds the last requested
(validated, dedup-missed) range, not the last successfully loaded one:
with a valid range, if currentDateRange already equals the requested
range the handler is a complete no-op with zero backend calls; if it
differs in any way, exactly one backend call is issued and the requested
range enters currentDateRange regardless of whether the call succeeds
or fails. -/
theorem c1_dedup_on_requested_range (st : SessionState) (s e : ℤ)
    (f : FetchResult) (hv : validateDates s e = DateValidation.ok) :
    (st.currentDateRange = some (s, e) → loadData st s e f = (st, 0)) ∧
    (st.currentDateRange ≠ some (s, e) →
      (loadData st s e f).2 = 1 ∧
      (loadData st s e f).1.currentDateRange = some (s, e)) := by
  constructor
  · intro hd
    simp [loadData, hv, hd]
  · intro hd
    cases f <;> simp [loadData, hv, hd]

/-- Claim C1, witness: a concrete no-op repeat and a concrete
change-triggered single call. -/
theorem c1_dedup_on_requested_range_witness :
    loadData (initState 5) (5 - 30 * msPerDay) 5 FetchResult.ok
      = (initState 5, 0) ∧
    (loadData (initState 5) 0 (7 * msPerDay) FetchResult.ok).2 = 1 :=
  ⟨(c1_dedup_on_requested_range (initState 5) (5 - 30 * msPerDay) 5 .ok
      (by rw [validateDates_eq]; decide)).1 (by decide),
   ((c1_dedup_on_requested_range (initState 5) 0 (7 * msPerDay) .ok
      (by rw [validateDates_eq]; decide)).2 (by decide)).1⟩

/-- Claim C2, evaluated at the failing input: after two consecutive
successful heat loads exactly one heat layer and one legend are attached
(the heat half of the claim holds), but after two consecutive successful
mitigation loads TWO cluster containers are attached, because the
handler removes the inner geoJSON layer — which was never attached to
the map — instead of the cluster group it attached. -/
theorem c2_mitigation_containers_stack :
    countKind ((loadData (loadData (initState (1000 * msPerDay)) 0 (5 * msPerDay)
        .ok).1 0 (6 * msPerDay) .ok).1).attached .heatLayer = 1 ∧
    countKind ((loadData (loadData (initState (1000 * msPerDay)) 0 (5 * msPerDay)
        .ok).1 0 (6 * msPerDay) .ok).1).attached .legendCtl = 1 ∧
    countKind ((showMitigation (showMitigation (initState (1000 * msPerDay))
        .ok).1 .ok).1).attached .clusterGroup = 2 := by
  have hv5 : validateDates 0 (5 * msPerDay) = .ok := by
    rw [validateDates_eq]; decide
  have hv6 : validateDates 0 (6 * msPerDay) = .ok := by
    rw [validateDates_eq]; decide
  simp only [loadData, hv5, hv6]
  decide

/-- Claim C3, evaluated at the failing input: after a successful load, a
reload with a fresh range whose fetch fails leaves the previously
rendered heat layer attached and unchanged, surfaces the error as a
notification and re-enables the trigger — but the loading indicator
control is NOT removed (the source removes it only on the success path),
contradicting the claim that the loading layer is cleared on error. -/
theorem c3_failed_load_keeps_loading_control :
    (loadData (loadData (initState (1000 * msPerDay)) 0 (5 * msPerDay) .ok).1
        0 (6 * msPerDay) (.err "down")).1.uhiLayer
      = (loadData (initState (1000 * msPerDay)) 0 (5 * msPerDay) .ok).1.uhiLayer ∧
    countKind ((loadData (loadData (initState (1000 * msPerDay)) 0 (5 * msPerDay)
        .ok).1 0 (6 * msPerDay) (.err "down")).1).attached .heatLayer = 1 ∧
    (loadData (loadData (initState (1000 * msPerDay)) 0 (5 * msPerDay) .ok).1
        0 (6 * msPerDay) (.err "down")).1.notifications = ["Error: down"] ∧
    (loadData (loadData (initState (1000 * msPerDay)) 0 (5 * msPerDay) .ok).1
        0 (6 * msPerDay) (.err "down")).1.loadBtnEnabled = true ∧
    countKind ((loadData (loadData (initState (1000 * msPerDay)) 0 (5 * msPerDay)
        .ok).1 0 (6 * msPerDay) (.err "down")).1).attached .loadingCtl = 1 := by
  have hv5 : validateDates 0 (5 * msPerDay) = .ok := by
    rw [validateDates_eq]; decide
  have hv6 : validateDates 0 (6 * msPerDay) = .ok := by
    rw [validateDates_eq]; decide
  simp only [loadData, hv5, hv6]
  decide

/-- Claim C10: at view open currentDateRange is pre-initialized to the
default last-30-days range, so the very first load trigger with the
unchanged default dates is a complete no-op — zero backend calls,
whatever the backend would have answered, and a state still holding no
layers. -/
theorem c10_first_trigger_is_noop (e0 : ℤ) (f : FetchResult) :
    loadData (initState e0) (e0 - 30 * msPerDay) e0 f = (initState e0, 0) := by
  have hv : validateDates (e0 - 30 * msPerDay) e0 = .ok := by
    rw [validateDates_eq]
    rw [if_neg (by simp [msPerDay] : ¬(e0 - 30 * msPerDay > e0))]
    rw [if_neg (by simp [msPerDay] : ¬(e0 - (e0 - 30 * msPerDay) > 365 * msPerDay))]
  simp [loadData, hv, initState]

/-- Claim C10, witness at a concrete opening date. -/
theorem c10_first_trigger_is_noop_witness :
    loadData (initState 0) (0 - 30 * msPerDay) 0 FetchResult.ok
      = (initState 0, 0) :=
  c10_first_trigger_is_noop 0 FetchResult.ok

end UhiMapper
